import Mathlib

/-!
Shallow embedding of the PPM productivity data-collection app
(src/ppm_quick_app.py and src/ppm_quick_app_no_verification.py).

The app manipulates three pandas DataFrames loaded from an Excel workbook
(Project List, Technician List, Inputs) plus, in the simplified-login
variant, a users.csv registry.  We model a dataframe cell as a `Cell`
value carrying Python/pandas semantics (None, float NaN, int, str), a
dataframe as a list of typed rows, and each operation of the source as a
Lean function over those lists.
-/

/-- A Python/pandas cell value as it occurs in the app's dataframes.
`vnone` is Python None; `vnan` is a float NaN, which is how pandas
represents a missing/empty Excel cell in a numeric column; `vint` is an
integer value (non-missing numeric cells, which the app coerces with
int()); `vstr` is a string value. -/
inductive Cell where
  | vnone : Cell
  | vnan : Cell
  | vint : Int → Cell
  | vstr : String → Cell
  deriving DecidableEq

/-- Python truthiness of a cell value: None is falsy, NaN is truthy
(bool(float nan) is True in Python), an int is truthy iff nonzero, a
string is truthy iff non-empty. -/
def truthy : Cell → Bool
  | Cell.vnone => false
  | Cell.vnan => true
  | Cell.vint n => n != 0
  | Cell.vstr s => s != ""

/-- Python `a or b`: returns `a` when `a` is truthy, else `b`. -/
def pyOr (a b : Cell) : Cell :=
  if truthy a then a else b

/-- Python int() applied to a cell value: succeeds on an int value and
fails (raises) on None, NaN and strings that are not modelled as numbers
(int(float nan) raises ValueError, int(None) raises TypeError). -/
def pyInt : Cell → Option Int
  | Cell.vint n => some n
  | _ => none

/-- pandas isna on a cell: true for None and NaN, false otherwise. -/
def isna : Cell → Bool
  | Cell.vnone => true
  | Cell.vnan => true
  | _ => false

/-- pandas elementwise equality of a stored cell against a selected
value, as used in the DataFrame filters `df[col] == value`: NaN compares
unequal to everything (including NaN), None equals None, ints and
strings compare by value, and values of different kinds are unequal. -/
def peq : Cell → Cell → Bool
  | Cell.vnone, Cell.vnone => true
  | Cell.vint m, Cell.vint n => m == n
  | Cell.vstr s, Cell.vstr t => s == t
  | _, _ => false

/-- pandas Series.sum() over a column of cells followed by int(): with
the default skipna=True, NaN/None entries are skipped and the remaining
integer values are summed; an empty sum is 0. -/
def pdSum (cells : List Cell) : Int :=
  (cells.filterMap pyInt).sum

/-- One row of the "Project List" sheet, restricted to the columns the
app reads: identity (Project Owner, Project Name), the Emirate, and the
four total-quota columns Indoors Qty, VRF OD Qty, DX Outdoor Qty,
AHU Qty.  Extra columns of the sheet are ignored by the app. -/
structure ProjectRow where
  owner : Cell
  name : Cell
  emirate : Cell
  indoorsQty : Cell
  vrfQty : Cell
  dxQty : Cell
  ahuQty : Cell
  deriving DecidableEq

/-- One row of the "Technician List" sheet: the Technician Name column. -/
structure TechnicianRow where
  techName : Cell
  deriving DecidableEq

/-- One row of the "Inputs" submissions log, as the typed view of its 14
columns.  The app writes team-member columns as plain strings (empty
string when a slot is unused), so those six columns are Strings here;
the date, identity, emirate and the four completed-count columns carry
arbitrary cell values as loaded from the sheet. -/
structure SubmissionRow where
  date : Cell
  owner : Cell
  name : Cell
  emirate : Cell
  indoorsCompleted : Cell
  vrfCompleted : Cell
  dxCompleted : Cell
  ahuCompleted : Cell
  tech1 : String
  tech2 : String
  tech3 : String
  helper1 : String
  helper2 : String
  helper3 : String
  deriving DecidableEq

/-- The filter `project_df.loc[(project_df["Project Owner"] == project_owner)
& (project_df["Project Name"] == project_name)]` (ppm_quick_app_no_verification.py
lines 282-285, ppm_quick_app.py lines 178-181). -/
def matchingProjects (project_df : List ProjectRow) (ow nm : Cell) : List ProjectRow :=
  project_df.filter (fun r => peq r.owner ow && peq r.name nm)

/-- The filter `inputs_df.loc[(inputs_df["Project Owner"] == project_owner)
& (inputs_df["Project Name"] == project_name)]` (ppm_quick_app_no_verification.py
lines 292-295, ppm_quick_app.py lines 188-191). -/
def matchingSubs (inputs_df : List SubmissionRow) (ow nm : Cell) : List SubmissionRow :=
  inputs_df.filter (fun s => peq s.owner ow && peq s.name nm)

/-- Models `int(prev["Indoors Completed"].sum())` over the submissions
matching the selected project (ppm_quick_app_no_verification.py line 296). -/
def completedIndoorSum (inputs_df : List SubmissionRow) (ow nm : Cell) : Int :=
  pdSum ((matchingSubs inputs_df ow nm).map (fun s => s.indoorsCompleted))

/-- Models `int(prev["VRF OD Completed"].sum())` (line 297). -/
def completedVrfSum (inputs_df : List SubmissionRow) (ow nm : Cell) : Int :=
  pdSum ((matchingSubs inputs_df ow nm).map (fun s => s.vrfCompleted))

/-- Models `int(prev["DX Outdoor Completed"].sum())` (line 298). -/
def completedDxSum (inputs_df : List SubmissionRow) (ow nm : Cell) : Int :=
  pdSum ((matchingSubs inputs_df ow nm).map (fun s => s.dxCompleted))

/-- Models `int(prev["AHU Completed"].sum())` (line 299). -/
def completedAhuSum (inputs_df : List SubmissionRow) (ow nm : Cell) : Int :=
  pdSum ((matchingSubs inputs_df ow nm).map (fun s => s.ahuCompleted))

/-- The remaining-quota computation of ppm_quick_app_no_verification.py
lines 280-303 (identically ppm_quick_app.py lines 175-200).  All four
remaining values start at 0; when `project_name` is truthy and a project
row matches (the code takes `.iloc[0]` of the filtered frame, i.e. the
first match), the totals are read with `int(row[col] or 0)` — which
raises when the cell is NaN, since NaN is truthy and int(NaN) fails, so
the result is an `Option`: `none` models the raised exception — the
completed counts are summed over the matching submissions, and each
remaining value is `max(total - completed, 0)`. -/
def remainingQuotas (project_df : List ProjectRow) (inputs_df : List SubmissionRow)
    (project_owner project_name : Cell) : Option (Int × Int × Int × Int) :=
  if truthy project_name then
    match (matchingProjects project_df project_owner project_name).head? with
    | none => some (0, 0, 0, 0)
    | some row =>
      match pyInt (pyOr row.indoorsQty (Cell.vint 0)), pyInt (pyOr row.vrfQty (Cell.vint 0)),
          pyInt (pyOr row.dxQty (Cell.vint 0)), pyInt (pyOr row.ahuQty (Cell.vint 0)) with
      | some total_indoor, some total_vrf, some total_dx, some total_ahu =>
          some (max (total_indoor - completedIndoorSum inputs_df project_owner project_name) 0,
            max (total_vrf - completedVrfSum inputs_df project_owner project_name) 0,
            max (total_dx - completedDxSum inputs_df project_owner project_name) 0,
            max (total_ahu - completedAhuSum inputs_df project_owner project_name) 0)
      | _, _, _, _ => none
  else
    some (0, 0, 0, 0)

/-- Sample project row ("Acme", "Tower A") with quotas {10, 5, 0, 2},
matching the scenario of the specification. -/
def projAcme : ProjectRow :=
  { owner := Cell.vstr "Acme", name := Cell.vstr "Tower A", emirate := Cell.vstr "Dubai",
    indoorsQty := Cell.vint 10, vrfQty := Cell.vint 5, dxQty := Cell.vint 0,
    ahuQty := Cell.vint 2 }

/-- Construction of the new submission row dict (ppm_quick_app_no_verification.py
lines 353-368, ppm_quick_app.py lines 254-269): the counts are coerced
with int() — the widgets hand back ints, so this always succeeds and is
modelled as `Cell.vint` directly — and the i-th technician/helper slot is
`selected[i]` when provided, else the empty string. -/
def buildSubmissionRow (today ow nm em : Cell) (ic vc dc ac : Int)
    (tech_selected helper_selected : List String) : SubmissionRow :=
  { date := today, owner := ow, name := nm, emirate := em,
    indoorsCompleted := Cell.vint ic, vrfCompleted := Cell.vint vc,
    dxCompleted := Cell.vint dc, ahuCompleted := Cell.vint ac,
    tech1 := tech_selected.getD 0 "", tech2 := tech_selected.getD 1 "",
    tech3 := tech_selected.getD 2 "",
    helper1 := helper_selected.getD 0 "", helper2 := helper_selected.getD 1 "",
    helper3 := helper_selected.getD 2 "" }

/-- Models `pd.concat([inputs_df, pd.DataFrame([row])], ignore_index=True)`
(ppm_quick_app_no_verification.py line 370, ppm_quick_app.py line 271):
pure concatenation, new record last. -/
def appendRecord (inputs_df : List SubmissionRow) (row : SubmissionRow) :
    List SubmissionRow :=
  inputs_df ++ [row]

/-- The body of `if st.button("Submit"):` (ppm_quick_app_no_verification.py
lines 351-372, ppm_quick_app.py lines 252-274): builds the row from the
widget values, appends it to the log, and calls save_inputs — with no
validation of the counts against the remaining quotas in this handler.
Returns the updated log and whether the persist call was made. -/
def submitAction (inputs_df : List SubmissionRow) (today ow nm em : Cell)
    (ic vc dc ac : Int) (tech_selected helper_selected : List String) :
    List SubmissionRow × Bool :=
  (appendRecord inputs_df
    (buildSubmissionRow today ow nm em ic vc dc ac tech_selected helper_selected),
   true)

/-- A raw sheet as pandas sees it: a list of column names and rows of
cells aligned with those columns. -/
structure RawTable where
  cols : List String
  rows : List (List Cell)
  deriving DecidableEq

/-- The fixed 14-column schema of the "Inputs" sheet, as listed in the
`except` branch of load_data (ppm_quick_app_no_verification.py lines
97-114, ppm_quick_app.py lines 70-87). -/
def expectedInputColumns : List String :=
  ["Date", "Project Owner", "Project Name", "Emirate",
   "Indoors Completed", "VRF OD Completed", "DX Outdoor Completed", "AHU Completed",
   "Technician name 1", "Technician name 2", "Technician name 3",
   "Helper name 1", "Helper name 2", "Helper name 3"]

/-- Python str.endswith: true iff `suffix` is a suffix of `s`. -/
def pyEndsWith (s suffix : String) : Bool :=
  List.isSuffixOf suffix.toList s.toList

/-- Models `inputs_df.drop(columns=[c for c in inputs_df.columns if
c.endswith("Compelet")])` (ppm_quick_app_no_verification.py lines 92-94):
every column whose name ends with the legacy misspelling "Compelet" is
removed, together with its values in each row; the remaining columns keep
their order.  (The code skips the drop call when no column matches, which
yields the same table.) -/
def dropCompeletColumns (t : RawTable) : RawTable :=
  { cols := t.cols.filter (fun c => !(pyEndsWith c "Compelet")),
    rows := t.rows.map (fun r =>
      ((t.cols.zip r).filter (fun p => !(pyEndsWith p.1 "Compelet"))).map
        (fun p => p.2)) }

/-- Loading of the "Inputs" sheet in load_data (ppm_quick_app_no_verification.py
lines 89-114, ppm_quick_app.py lines 62-87): when the sheet exists its
legacy "Compelet" columns are dropped; when reading it raises (sheet
absent), an empty DataFrame with the expected 14 columns is created. -/
def loadInputs : Option RawTable → RawTable
  | some t => dropCompeletColumns t
  | none => { cols := expectedInputColumns, rows := [] }

/-- Models `project_df.dropna(subset=["Project Owner", "Project Name"])`
(ppm_quick_app_no_verification.py line 116, ppm_quick_app.py line 140):
rows whose owner or name cell is missing (NaN/None) are dropped. -/
def dropnaProjects (rows : List ProjectRow) : List ProjectRow :=
  rows.filter (fun r => !(isna r.owner) && !(isna r.name))

/-- Models `technician_df.dropna(subset=["Technician Name"])`
(ppm_quick_app_no_verification.py line 117, ppm_quick_app.py line 141). -/
def dropnaTechnicians (rows : List TechnicianRow) : List TechnicianRow :=
  rows.filter (fun r => !(isna r.techName))

/-- The load pipeline for the three tables, modelling load_data of
ppm_quick_app_no_verification.py lines 73-118 (in ppm_quick_app.py the
two dropna calls happen in main, lines 139-141, immediately after
load_data — the composed pipeline is identical).  The source workbook is
given as the raw Project List rows, Technician List rows, and the Inputs
sheet when present (`none` models a workbook without an Inputs sheet). -/
def load_data (project_rows : List ProjectRow) (technician_rows : List TechnicianRow)
    (inputs_sheet : Option RawTable) :
    List ProjectRow × List TechnicianRow × RawTable :=
  (dropnaProjects project_rows, dropnaTechnicians technician_rows,
   loadInputs inputs_sheet)

/-- One row of the users.csv registry.  The file is read with dtype=str,
so the three columns phone, name, role are strings. -/
structure UserRow where
  phone : String
  name : String
  role : String
  deriving DecidableEq

/-- The state of users.csv as seen by load_users: the file may be absent,
present but unparseable (pd.read_csv raises), or a readable table. -/
inductive UsersSource where
  | absent : UsersSource
  | unreadable : UsersSource
  | table : List UserRow → UsersSource
  deriving DecidableEq

/-- load_users (ppm_quick_app_no_verification.py lines 49-65): a missing
file, and a read_csv failure, both yield an empty DataFrame with columns
["phone", "name", "role"] (here: the empty list of UserRow); otherwise
the stored rows are returned. -/
def load_users : UsersSource → List UserRow
  | UsersSource.absent => []
  | UsersSource.unreadable => []
  | UsersSource.table rows => rows

/-- Python str.strip() with no argument: removes leading and trailing
whitespace characters from the string. -/
def pyStrip (s : String) : String :=
  String.mk
    (((s.toList.dropWhile Char.isWhitespace).reverse.dropWhile Char.isWhitespace).reverse)

/-- Python str.lower(): lowercases every character. -/
def pyLower (s : String) : String :=
  String.mk (s.toList.map Char.toLower)

/-- The outcome of one pass through the login handler: the tuple
`(authenticated, is_admin, phone)` returned by show_login, plus the
users registry after the call and whether save_users was invoked. -/
structure LoginResult where
  authenticated : Bool
  is_admin : Bool
  phone : String
  users : List UserRow
  persisted : Bool
  deriving DecidableEq

/-- The login-button handler of show_login (ppm_quick_app_no_verification.py
lines 199-215) starting from the logged-out state: the input is stripped;
an empty result is rejected silently (no state change, nothing saved).
Otherwise the phone is looked up by exact match (`phone in
users['phone'].values`, then `.iloc[0]` of the matching rows, i.e. the
first match); a found user is authenticated with
`is_admin = (record['role'].lower() == 'admin')` and the registry is left
alone; an unknown phone is appended as `{phone, name: '', role: 'user'}`,
save_users is called, and the user is authenticated as non-admin. -/
def show_login (users : List UserRow) (phone_input : String) : LoginResult :=
  let phone := pyStrip phone_input
  if phone ≠ "" then
    match users.find? (fun u => u.phone == phone) with
    | some user_record =>
        { authenticated := true,
          is_admin := pyLower user_record.role == "admin",
          phone := phone, users := users, persisted := false }
    | none =>
        { authenticated := true, is_admin := false, phone := phone,
          users := users ++ [{ phone := phone, name := "", role := "user" }],
          persisted := true }
  else
    { authenticated := false, is_admin := false, phone := phone,
      users := users, persisted := false }

/-- One row of the admin summary table (ppm_quick_app_no_verification.py
lines 400-411): project identity, and per category the completed sum and
the total quota. -/
structure SummaryRow where
  owner : Cell
  name : Cell
  completedIndoor : Int
  totalIndoor : Int
  completedVrf : Int
  totalVrf : Int
  completedDx : Int
  totalDx : Int
  completedAhu : Int
  totalAhu : Int
  deriving DecidableEq

/-- The body of the summary loop for one project row
(ppm_quick_app_no_verification.py lines 386-411): totals are read with
`int(p_row.get(col, 0) or 0)` — `.get` defaults a missing column to 0,
the `or 0` turns None into 0, and int() raises on NaN, modelled as
`none` — and the completed sums are the unclamped sums over the
submissions matching (owner, name), exactly as in the remaining-quota
computation. -/
def summaryRowOf (inputs_df : List SubmissionRow) (p : ProjectRow) : Option SummaryRow :=
  match pyInt (pyOr p.indoorsQty (Cell.vint 0)), pyInt (pyOr p.vrfQty (Cell.vint 0)),
      pyInt (pyOr p.dxQty (Cell.vint 0)), pyInt (pyOr p.ahuQty (Cell.vint 0)) with
  | some total_indoor, some total_vrf, some total_dx, some total_ahu =>
      some { owner := p.owner, name := p.name,
             completedIndoor := completedIndoorSum inputs_df p.owner p.name,
             totalIndoor := total_indoor,
             completedVrf := completedVrfSum inputs_df p.owner p.name,
             totalVrf := total_vrf,
             completedDx := completedDxSum inputs_df p.owner p.name,
             totalDx := total_dx,
             completedAhu := completedAhuSum inputs_df p.owner p.name,
             totalAhu := total_ahu }
  | _, _, _, _ => none

/-- The summary loop `for _, p_row in project_df.iterrows(): ...
summary_rows.append({...})` (ppm_quick_app_no_verification.py lines
385-412): one output row per project row, in order; an exception in any
iteration (int() on a NaN quota) aborts the whole view, modelled by
`none`. -/
def summarize (inputs_df : List SubmissionRow) : List ProjectRow → Option (List SummaryRow)
  | [] => some []
  | p :: rest =>
      match summaryRowOf inputs_df p, summarize inputs_df rest with
      | some r, some rs => some (r :: rs)
      | _, _ => none

/-- The progress-bar computation for one category (ppm_quick_app_no_verification.py
lines 424-431): only when `total_val > 0` is a ratio computed, as
`comp_val / total_val` clamped to [0, 1] via `max(0.0, min(1.0, pct))`;
otherwise no bar is rendered (`none`).  Python float division is modelled
over ℚ. -/
def progressPct (comp_val total_val : Int) : Option ℚ :=
  if 0 < total_val then
    some (max 0 (min 1 ((comp_val : ℚ) / (total_val : ℚ))))
  else
    none

/-- Sample submission against ("Acme", "Tower A"): {indoor 4, vrf 1,
dx 0, ahu 0} by technicians Ali and Omar, matching the specification's
scenario. -/
def subAcme1 : SubmissionRow :=
  { date := Cell.vstr "2024-01-01", owner := Cell.vstr "Acme",
    name := Cell.vstr "Tower A", emirate := Cell.vstr "Dubai",
    indoorsCompleted := Cell.vint 4, vrfCompleted := Cell.vint 1,
    dxCompleted := Cell.vint 0, ahuCompleted := Cell.vint 0,
    tech1 := "Ali", tech2 := "Omar", tech3 := "",
    helper1 := "", helper2 := "", helper3 := "" }

/-- Sample over-submission against ("Acme", "Tower A"): 12 indoor units
completed, exceeding the total quota of 10. -/
def subAcmeOver : SubmissionRow :=
  { date := Cell.vstr "2024-01-03", owner := Cell.vstr "Acme",
    name := Cell.vstr "Tower A", emirate := Cell.vstr "Dubai",
    indoorsCompleted := Cell.vint 12, vrfCompleted := Cell.vint 0,
    dxCompleted := Cell.vint 0, ahuCompleted := Cell.vint 0,
    tech1 := "Ali", tech2 := "", tech3 := "",
    helper1 := "", helper2 := "", helper3 := "" }

/-- Helper: every defined result of the remaining-quota computation is
componentwise non-negative, in every branch of the computation. -/
theorem remainingQuotas_nonneg (P : List ProjectRow) (S : List SubmissionRow)
    (ow nm : Cell) (q : Int × Int × Int × Int)
    (hq : remainingQuotas P S ow nm = some q) :
    0 ≤ q.1 ∧ 0 ≤ q.2.1 ∧ 0 ≤ q.2.2.1 ∧ 0 ≤ q.2.2.2 := by
  unfold remainingQuotas at hq
  split at hq
  · split at hq
    · cases hq
      exact ⟨le_refl 0, le_refl 0, le_refl 0, le_refl 0⟩
    · split at hq
      · cases hq
        exact ⟨le_max_right _ _, le_max_right _ _, le_max_right _ _, le_max_right _ _⟩
      · simp at hq
  · cases hq
    exact ⟨le_refl 0, le_refl 0, le_refl 0, le_refl 0⟩

/-- C1: for every project identified by (owner, name) and every
submissions log, when a project row matches and its quota cells coerce
(via `or 0` and int()) to the totals, the remaining value per category is
max(total minus the sum of that category's completed counts over the
matching submissions, 0); every defined result is non-negative in all
four components; and when no project row matches, all four remaining
values are 0. -/
theorem remaining_matches_clamped_totals (P : List ProjectRow) (S : List SubmissionRow)
    (ow nm : Cell) :
    (∀ row total_indoor total_vrf total_dx total_ahu,
      truthy nm = true →
      (matchingProjects P ow nm).head? = some row →
      pyInt (pyOr row.indoorsQty (Cell.vint 0)) = some total_indoor →
      pyInt (pyOr row.vrfQty (Cell.vint 0)) = some total_vrf →
      pyInt (pyOr row.dxQty (Cell.vint 0)) = some total_dx →
      pyInt (pyOr row.ahuQty (Cell.vint 0)) = some total_ahu →
      remainingQuotas P S ow nm =
        some (max (total_indoor - completedIndoorSum S ow nm) 0,
          max (total_vrf - completedVrfSum S ow nm) 0,
          max (total_dx - completedDxSum S ow nm) 0,
          max (total_ahu - completedAhuSum S ow nm) 0)) ∧
    (∀ q, remainingQuotas P S ow nm = some q →
      0 ≤ q.1 ∧ 0 ≤ q.2.1 ∧ 0 ≤ q.2.2.1 ∧ 0 ≤ q.2.2.2) ∧
    (matchingProjects P ow nm = [] →
      remainingQuotas P S ow nm = some (0, 0, 0, 0)) := by
  refine ⟨?_, fun q hq => remainingQuotas_nonneg P S ow nm q hq, ?_⟩
  · intro row ti tv td ta htruthy hrow h1 h2 h3 h4
    simp only [remainingQuotas, htruthy, if_true, hrow, h1, h2, h3, h4]
  · intro hempty
    cases htruthy : truthy nm with
    | false => simp [remainingQuotas, htruthy]
    | true => simp [remainingQuotas, htruthy, hempty]

/-- Witness for C1: on the specification's scenario project with quotas
{10, 5, 0, 2} and one prior submission of {4, 1, 0, 0}, the remaining
quotas are {6, 4, 0, 2}; and for a name with no matching project row the
remaining quotas are all 0. -/
theorem remaining_matches_clamped_totals_witness :
    remainingQuotas [projAcme] [subAcme1] (Cell.vstr "Acme") (Cell.vstr "Tower A")
      = some (6, 4, 0, 2) ∧
    remainingQuotas [projAcme] [subAcme1] (Cell.vstr "Acme") (Cell.vstr "Rig B")
      = some (0, 0, 0, 0) := by
  constructor
  · have h := (remaining_matches_clamped_totals [projAcme] [subAcme1]
        (Cell.vstr "Acme") (Cell.vstr "Tower A")).1 projAcme 10 5 0 2
      (by decide) (by decide) (by decide) (by decide) (by decide) (by decide)
    exact h.trans (by decide)
  · exact (remaining_matches_clamped_totals [projAcme] [subAcme1]
      (Cell.vstr "Acme") (Cell.vstr "Rig B")).2.2 (by decide)

/-- Project row whose Indoors Qty cell is NaN, which is how pandas
represents a quota cell left empty in the Excel sheet. -/
def projNanQuota : ProjectRow :=
  { owner := Cell.vstr "Acme", name := Cell.vstr "Tower A",
    emirate := Cell.vstr "Dubai", indoorsQty := Cell.vnan,
    vrfQty := Cell.vint 5, dxQty := Cell.vint 0, ahuQty := Cell.vint 2 }

/-- Project row whose Indoors Qty cell is Python None (a null in an
object-typed column). -/
def projNoneQuota : ProjectRow :=
  { owner := Cell.vstr "Acme", name := Cell.vstr "Tower A",
    emirate := Cell.vstr "Dubai", indoorsQty := Cell.vnone,
    vrfQty := Cell.vint 5, dxQty := Cell.vint 0, ahuQty := Cell.vint 2 }

/-- C3 (code bug): on a project row whose Indoors Qty is a missing cell
(NaN), the remaining-quota computation raises instead of treating the
quota as 0 — `int(row["Indoors Qty"] or 0)` evaluates `nan or 0` to nan
because NaN is truthy, and int(nan) raises ValueError (modelled: the
computation yields `none`).  Only a None quota (second conjunct) is
defaulted to 0 as the `or 0` intends, yielding remaining indoor 0. -/
theorem remaining_nan_quota_raises :
    remainingQuotas [projNanQuota] [] (Cell.vstr "Acme") (Cell.vstr "Tower A")
      = none ∧
    remainingQuotas [projNoneQuota] [] (Cell.vstr "Acme") (Cell.vstr "Tower A")
      = some (0, 5, 0, 2) := by
  decide

/-- C5: append is a pure concatenation — the result has length
len(S) + 1, the rows of S appear first, unmodified and in their original
order, and the new record is the last row. -/
theorem appendRecord_pure_concat (S : List SubmissionRow) (r : SubmissionRow) :
    (appendRecord S r).length = S.length + 1 ∧
    (appendRecord S r).take S.length = S ∧
    (appendRecord S r).getLast? = some r := by
  refine ⟨?_, ?_, ?_⟩ <;> simp [appendRecord]

/-- The row the submit handler builds for an indoor count of 11 against
("Acme", "Tower A"). -/
def rowOver11 : SubmissionRow :=
  buildSubmissionRow (Cell.vstr "2024-01-02") (Cell.vstr "Acme")
    (Cell.vstr "Tower A") (Cell.vstr "Dubai") 11 0 0 0 ["Ali"] []

/-- Counterexample to C2: against the project with remaining indoor
quota 10, submitting indoor = 11 is not rejected — the submit handler
appends the record (the log grows from 0 to 1 rows, the new row carrying
the count 11) and calls the persist function.  There is no server-side
re-validation anywhere in the handler. -/
theorem submit_over_quota_accepted :
    remainingQuotas [projAcme] [] (Cell.vstr "Acme") (Cell.vstr "Tower A")
      = some (10, 5, 0, 2) ∧
    (submitAction [] (Cell.vstr "2024-01-02") (Cell.vstr "Acme")
        (Cell.vstr "Tower A") (Cell.vstr "Dubai") 11 0 0 0 ["Ali"] []).1
      = [rowOver11] ∧
    rowOver11.indoorsCompleted = Cell.vint 11 ∧
    (submitAction [] (Cell.vstr "2024-01-02") (Cell.vstr "Acme")
        (Cell.vstr "Tower A") (Cell.vstr "Dubai") 11 0 0 0 ["Ali"] []).2
      = true := by
  decide

/-- C2 as amended: the submit handler performs no server-side
validation — for any entered counts, including an indoor count strictly
exceeding the remaining indoor quota computed at the moment of entry,
the handler appends exactly one new record carrying those counts (prior
rows preserved in order) and invokes the persist call; only the UI
widget bounds constrain the counts. -/
theorem submit_appends_without_validation (S : List SubmissionRow)
    (P : List ProjectRow) (today ow nm em : Cell) (ic vc dc ac : Int)
    (tech_selected helper_selected : List String) (ri rv rd ra : Int)
    (_hrem : remainingQuotas P S ow nm = some (ri, rv, rd, ra))
    (_hover : ri < ic) :
    (submitAction S today ow nm em ic vc dc ac tech_selected helper_selected).1.length
      = S.length + 1 ∧
    (submitAction S today ow nm em ic vc dc ac tech_selected helper_selected).1.take S.length
      = S ∧
    (submitAction S today ow nm em ic vc dc ac tech_selected helper_selected).1.getLast?
      = some (buildSubmissionRow today ow nm em ic vc dc ac tech_selected helper_selected) ∧
    (buildSubmissionRow today ow nm em ic vc dc ac tech_selected helper_selected).indoorsCompleted
      = Cell.vint ic ∧
    (submitAction S today ow nm em ic vc dc ac tech_selected helper_selected).2 = true := by
  refine ⟨?_, ?_, ?_, rfl, rfl⟩ <;> simp [submitAction, appendRecord]

/-- Witness for the amended C2: submitting indoor = 11 against remaining
indoor 10 on the scenario project appends and persists the record. -/
theorem submit_appends_without_validation_witness :
    (submitAction [] (Cell.vstr "2024-01-02") (Cell.vstr "Acme")
        (Cell.vstr "Tower A") (Cell.vstr "Dubai") 11 0 0 0 ["Ali"] []).1.length
      = ([] : List SubmissionRow).length + 1 ∧
    (submitAction [] (Cell.vstr "2024-01-02") (Cell.vstr "Acme")
        (Cell.vstr "Tower A") (Cell.vstr "Dubai") 11 0 0 0 ["Ali"] []).1.take
        ([] : List SubmissionRow).length
      = ([] : List SubmissionRow) ∧
    (submitAction [] (Cell.vstr "2024-01-02") (Cell.vstr "Acme")
        (Cell.vstr "Tower A") (Cell.vstr "Dubai") 11 0 0 0 ["Ali"] []).1.getLast?
      = some (buildSubmissionRow (Cell.vstr "2024-01-02") (Cell.vstr "Acme")
          (Cell.vstr "Tower A") (Cell.vstr "Dubai") 11 0 0 0 ["Ali"] []) ∧
    (buildSubmissionRow (Cell.vstr "2024-01-02") (Cell.vstr "Acme")
        (Cell.vstr "Tower A") (Cell.vstr "Dubai") 11 0 0 0 ["Ali"] []).indoorsCompleted
      = Cell.vint 11 ∧
    (submitAction [] (Cell.vstr "2024-01-02") (Cell.vstr "Acme")
        (Cell.vstr "Tower A") (Cell.vstr "Dubai") 11 0 0 0 ["Ali"] []).2 = true :=
  submit_appends_without_validation [] [projAcme] (Cell.vstr "2024-01-02")
    (Cell.vstr "Acme") (Cell.vstr "Tower A") (Cell.vstr "Dubai") 11 0 0 0
    ["Ali"] [] 10 5 0 2 (by decide) (by decide)

/-- Registry row of a previously registered administrator. -/
def adminBoss : UserRow := { phone := "+971555", name := "Boss", role := "Admin" }

/-- C4: the authenticate step of the login handler.  For a stripped,
non-empty phone p: when a registry record with that phone exists, the
first matching record's role is returned (as the case-insensitive admin
flag computed from it), the registry is unchanged and nothing is
persisted; when no record matches, exactly one record
{phone: p, name: "", role: "user"} is appended, the registry is
persisted, the role is "user" (non-admin), and a repeated call with the
same p returns role "user" again without growing the registry or
persisting. -/
theorem authenticate_contract (users : List UserRow) (p : String)
    (hstrip : pyStrip p = p) (hne : p ≠ "") :
    (∀ u, users.find? (fun v => v.phone == p) = some u →
      show_login users p =
        { authenticated := true, is_admin := (pyLower u.role == "admin"),
          phone := p, users := users, persisted := false }) ∧
    (users.find? (fun v => v.phone == p) = none →
      show_login users p =
        { authenticated := true, is_admin := false, phone := p,
          users := users ++ [{ phone := p, name := "", role := "user" }],
          persisted := true } ∧
      show_login (users ++ [{ phone := p, name := "", role := "user" }]) p =
        { authenticated := true, is_admin := false, phone := p,
          users := users ++ [{ phone := p, name := "", role := "user" }],
          persisted := false }) := by
  constructor
  · intro u hu
    simp [show_login, hstrip, hne, hu]
  · intro hnone
    constructor
    · simp [show_login, hstrip, hne, hnone]
    · simp [show_login, hstrip, hne, List.find?_append, hnone, List.find?, pyLower]

/-- Witness for C4: an existing admin phone is authenticated as admin
with the registry untouched; the unseen phone "+97100000" is registered
with role "user" exactly once, and the repeated call neither grows the
registry nor persists. -/
theorem authenticate_contract_witness :
    show_login [adminBoss] "+971555" =
      { authenticated := true, is_admin := (pyLower adminBoss.role == "admin"),
        phone := "+971555", users := [adminBoss], persisted := false } ∧
    (show_login [] "+97100000" =
      { authenticated := true, is_admin := false, phone := "+97100000",
        users := [{ phone := "+97100000", name := "", role := "user" }],
        persisted := true } ∧
     show_login [{ phone := "+97100000", name := "", role := "user" }] "+97100000" =
      { authenticated := true, is_admin := false, phone := "+97100000",
        users := [{ phone := "+97100000", name := "", role := "user" }],
        persisted := false }) :=
  ⟨(authenticate_contract [adminBoss] "+971555" (by decide) (by decide)).1
      adminBoss (by decide),
   (authenticate_contract [] "+97100000" (by decide) (by decide)).2 (by decide)⟩

/-- C9: an empty or whitespace-only phone input is rejected silently —
the session does not transition to the logged-in state, the registry is
unchanged, and nothing is persisted. -/
theorem login_rejects_blank_phone (users : List UserRow) (phone_input : String)
    (h : pyStrip phone_input = "") :
    show_login users phone_input =
      { authenticated := false, is_admin := false, phone := "",
        users := users, persisted := false } := by
  simp [show_login, h]

/-- Witness for C9: a whitespace-only phone input leaves an arbitrary
concrete registry untouched and unauthenticated. -/
theorem login_rejects_blank_phone_witness :
    show_login [adminBoss] "   " =
      { authenticated := false, is_admin := false, phone := "",
        users := [adminBoss], persisted := false } :=
  login_rejects_blank_phone [adminBoss] "   " (by decide)

/-- C10: a missing or unparseable users registry file loads as the empty
registry (with the phone/name/role schema carried by the row type), and
against it any stripped non-empty phone is treated as unseen: it is
auto-registered with role "user" — never "admin" (the admin flag is
false) — and the grown registry is persisted. -/
theorem load_users_defaults_empty (p : String) (h : pyStrip p ≠ "") :
    load_users UsersSource.absent = [] ∧
    load_users UsersSource.unreadable = [] ∧
    show_login (load_users UsersSource.absent) p =
      { authenticated := true, is_admin := false, phone := pyStrip p,
        users := [{ phone := pyStrip p, name := "", role := "user" }],
        persisted := true } := by
  refine ⟨rfl, rfl, ?_⟩
  simp [show_login, load_users, h]

/-- Witness for C10: the unseen phone "+97100000" against the
empty-on-failure registry is registered with role "user". -/
theorem load_users_defaults_empty_witness :
    load_users UsersSource.absent = [] ∧
    load_users UsersSource.unreadable = [] ∧
    show_login (load_users UsersSource.absent) "+97100000" =
      { authenticated := true, is_admin := false, phone := pyStrip "+97100000",
        users := [{ phone := pyStrip "+97100000", name := "", role := "user" }],
        persisted := true } :=
  load_users_defaults_empty "+97100000" (by decide)

/-- C6: the Submissions table returned by load never contains a column
whose name ends with the legacy misspelling suffix "Compelet"; and when
the Inputs sheet is absent, load returns an empty table (no rows) with
exactly the fixed 14-column schema. -/
theorem load_inputs_schema (project_rows : List ProjectRow)
    (technician_rows : List TechnicianRow) (inputs_sheet : Option RawTable)
    (c : String) :
    (c ∈ (load_data project_rows technician_rows inputs_sheet).2.2.cols →
      pyEndsWith c "Compelet" = false) ∧
    (load_data project_rows technician_rows none).2.2 =
      { cols := ["Date", "Project Owner", "Project Name", "Emirate",
          "Indoors Completed", "VRF OD Completed", "DX Outdoor Completed",
          "AHU Completed", "Technician name 1", "Technician name 2",
          "Technician name 3", "Helper name 1", "Helper name 2",
          "Helper name 3"], rows := [] } ∧
    expectedInputColumns.length = 14 := by
  refine ⟨?_, rfl, by decide⟩
  intro hc
  cases inputs_sheet with
  | none =>
    have hall : ∀ x ∈ expectedInputColumns, pyEndsWith x "Compelet" = false := by
      decide
    exact hall c (by simpa [load_data, loadInputs] using hc)
  | some t =>
    have hmem : c ∈ t.cols.filter (fun x => !(pyEndsWith x "Compelet")) := by
      simpa [load_data, loadInputs, dropCompeletColumns] using hc
    have h := (List.mem_filter.mp hmem).2
    simpa using h

/-- A raw Inputs sheet still carrying a legacy misspelt column. -/
def rawInputsLegacy : RawTable :=
  { cols := ["Date", "Indoors Compelet", "Indoors Completed"],
    rows := [[Cell.vstr "2024-01-01", Cell.vint 3, Cell.vint 4]] }

/-- Witness for C6: the column "Date" of a loaded sheet that contained a
legacy "Indoors Compelet" column does not end with the suffix, and the
loaded table dropped the legacy column while keeping the others. -/
theorem load_inputs_schema_witness :
    pyEndsWith "Date" "Compelet" = false ∧
    (load_data [] [] (some rawInputsLegacy)).2.2 =
      { cols := ["Date", "Indoors Completed"],
        rows := [[Cell.vstr "2024-01-01", Cell.vint 4]] } :=
  ⟨(load_inputs_schema [] [] (some rawInputsLegacy) "Date").1 (by decide),
   by decide⟩

/-- Technician row with a present name. -/
def techAli : TechnicianRow := { techName := Cell.vstr "Ali" }

/-- C7: after load, no Projects row is missing Project Owner or Project
Name, and no Technicians row is missing Technician Name — such rows are
dropped by the dropna steps of the load pipeline. -/
theorem load_drops_rows_missing_identity (project_rows : List ProjectRow)
    (technician_rows : List TechnicianRow) (inputs_sheet : Option RawTable)
    (r : ProjectRow) (t : TechnicianRow) :
    (r ∈ (load_data project_rows technician_rows inputs_sheet).1 →
      isna r.owner = false ∧ isna r.name = false) ∧
    (t ∈ (load_data project_rows technician_rows inputs_sheet).2.1 →
      isna t.techName = false) := by
  constructor
  · intro hr
    have hmem : r ∈ project_rows.filter (fun x => !(isna x.owner) && !(isna x.name)) := by
      simpa [load_data, dropnaProjects] using hr
    have h := (List.mem_filter.mp hmem).2
    simp only [Bool.and_eq_true, Bool.not_eq_true'] at h
    exact h
  · intro ht
    have hmem : t ∈ technician_rows.filter (fun x => !(isna x.techName)) := by
      simpa [load_data, dropnaTechnicians] using ht
    have h := (List.mem_filter.mp hmem).2
    simpa using h

/-- Witness for C7: a fully identified project row and technician row
survive the load pipeline and indeed have no missing identity cell. -/
theorem load_drops_rows_missing_identity_witness :
    (isna projAcme.owner = false ∧ isna projAcme.name = false) ∧
    isna techAli.techName = false :=
  ⟨(load_drops_rows_missing_identity [projAcme] [techAli] none projAcme techAli).1
      (by decide),
   (load_drops_rows_missing_identity [projAcme] [techAli] none projAcme techAli).2
      (by decide)⟩

/-- Helper: a defined summary row copies the project identity and
carries the unclamped completed sums over the matching submissions. -/
theorem summaryRowOf_fields (S : List SubmissionRow) (p : ProjectRow) (r : SummaryRow)
    (h : summaryRowOf S p = some r) :
    r.owner = p.owner ∧ r.name = p.name ∧
    r.completedIndoor = completedIndoorSum S p.owner p.name ∧
    r.completedVrf = completedVrfSum S p.owner p.name ∧
    r.completedDx = completedDxSum S p.owner p.name ∧
    r.completedAhu = completedAhuSum S p.owner p.name := by
  unfold summaryRowOf at h
  split at h
  · cases h
    exact ⟨rfl, rfl, rfl, rfl, rfl, rfl⟩
  · simp at h

/-- Helper: a defined summary aligns rowwise with the project rows, each
output row produced by the loop body from the corresponding project. -/
theorem summarize_rowwise (S : List SubmissionRow) :
    ∀ (P : List ProjectRow) (rows : List SummaryRow),
      summarize S P = some rows →
      List.Forall₂ (fun p r => summaryRowOf S p = some r) P rows := by
  intro P
  induction P with
  | nil =>
    intro rows h
    unfold summarize at h
    cases h
    exact List.Forall₂.nil
  | cons p rest ih =>
    intro rows h
    unfold summarize at h
    cases hr : summaryRowOf S p with
    | none =>
      rw [hr] at h
      simp at h
    | some r0 =>
      rw [hr] at h
      cases hrest : summarize S rest with
      | none =>
        rw [hrest] at h
        simp at h
      | some rs =>
        rw [hrest] at h
        cases h
        exact List.Forall₂.cons hr (ih rs hrest)

/-- C8: the admin summary emits one output row per project row, with
completed sums computed unclamped over the matching submissions (they may
exceed the totals); the per-category completion ratio is computed only
when the total is positive, and every computed ratio is clamped into
[0, 1]. -/
theorem summary_unclamped_sums_clamped_display (P : List ProjectRow)
    (S : List SubmissionRow) :
    (∀ rows, summarize S P = some rows →
      rows.length = P.length ∧
      List.Forall₂ (fun (p : ProjectRow) (r : SummaryRow) =>
        r.owner = p.owner ∧ r.name = p.name ∧
        r.completedIndoor = completedIndoorSum S p.owner p.name ∧
        r.completedVrf = completedVrfSum S p.owner p.name ∧
        r.completedDx = completedDxSum S p.owner p.name ∧
        r.completedAhu = completedAhuSum S p.owner p.name) P rows) ∧
    (∀ comp_val total_val : Int, total_val ≤ 0 →
      progressPct comp_val total_val = none) ∧
    (∀ (comp_val total_val : Int) (pctv : ℚ),
      progressPct comp_val total_val = some pctv →
      0 ≤ pctv ∧ pctv ≤ 1) := by
  refine ⟨?_, ?_, ?_⟩
  · intro rows hrows
    have hf := summarize_rowwise S P rows hrows
    exact ⟨(List.Forall₂.length_eq hf).symm,
      List.Forall₂.imp (fun p r h => summaryRowOf_fields S p r h) hf⟩
  · intro c t ht
    unfold progressPct
    rw [if_neg (not_lt.mpr ht)]
  · intro c t q hq
    unfold progressPct at hq
    split at hq
    · cases hq
      exact ⟨le_max_left _ _, max_le zero_le_one (min_le_left _ _)⟩
    · simp at hq

/-- The summary row the loop produces for the over-submitted scenario
project: completed indoor 12 against total 10, shown unclamped. -/
def summaryAcmeOver : SummaryRow :=
  { owner := Cell.vstr "Acme", name := Cell.vstr "Tower A",
    completedIndoor := 12, totalIndoor := 10, completedVrf := 0, totalVrf := 5,
    completedDx := 0, totalDx := 0, completedAhu := 0, totalAhu := 2 }

/-- Witness for C8: with a single over-submission of 12 indoor units
against total 10, the summary has one row per project, its completed
indoor sum is the unclamped 12 (exceeding the total 10), and the indoor
ratio 12/10 is clamped to 1, inside [0, 1]. -/
theorem summary_unclamped_sums_clamped_display_witness :
    ([summaryAcmeOver] : List SummaryRow).length
      = ([projAcme] : List ProjectRow).length ∧
    summaryAcmeOver.completedIndoor = 12 ∧
    summaryAcmeOver.totalIndoor = 10 ∧
    progressPct 12 10 = some 1 ∧
    ((0 : ℚ) ≤ 1 ∧ (1 : ℚ) ≤ 1) :=
  ⟨((summary_unclamped_sums_clamped_display [projAcme] [subAcmeOver]).1
      [summaryAcmeOver] (by decide)).1,
   rfl, rfl,
   by simp [progressPct]; norm_num,
   (summary_unclamped_sums_clamped_display [projAcme] [subAcmeOver]).2.2 12 10 1
     (by simp [progressPct]; norm_num)⟩
